import Mathlib

/-!
Shallow embedding of the indicator & signal engine of `src/stock.py`
(bluzeyyy/stock-analysis-app).

Price series are modelled as `List ℚ` of closes (one entry per bar,
ascending by date).  Pandas `NaN` cells are modelled as `Option` `none`,
and the float literal `1e-10` as the exact rational `1/10^10`; all
arithmetic is exact rational arithmetic.

The pipeline mirrors lines 45-118 of `src/stock.py`:
  * `data['Close'].diff()`                        → `delta`
  * `delta.where(delta > 0, 0)`                   → `gain`   (NaN ↦ 0!)
  * `-delta.where(delta < 0, 0)`                  → `loss`   (NaN ↦ 0!)
  * `rolling(window=w).mean()`                    → `rollingMean`
  * `rs = avg_gain / (avg_loss + 1e-10)`          → `rs`
  * `data['RSI'] = 100 - (100 / (1 + rs))`        → `RSI`
  * `data['Close'].rolling(window=20).mean()`     → `SMA20`
  * `data['Close'].rolling(window=20).std()`      → `STD20` (sample std, ddof=1)
  * `data['SMA20'] ± 2 * data['STD20']`           → `UpperBB` / `LowerBB`
  * lines 95-118 (signal classification)          → `sma_signal`, `rsi_signal`,
                                                    `recommendation`
  * lines 45-56 / 95-118 (per-ticker loop)        → `processTicker`, `processAll`
-/

namespace StockAnalysis

/-- Positional access to a close series (pandas positional indexing);
the default 0 is never reached by in-range indices. -/
def getC (c : List ℚ) (i : ℕ) : ℚ := c.getD i 0

/-- `data['Close'].diff()`: `delta[0]` is NaN (`none`),
`delta[i] = close[i] - close[i-1]` for `i ≥ 1`. -/
def delta (c : List ℚ) (i : ℕ) : Option ℚ :=
  if i = 0 then none else some (getC c i - getC c (i - 1))

/-- `gain = delta.where(delta > 0, 0)`: keep `delta[i]` where it is `> 0`,
else 0.  A NaN delta compares false, so the NaN at position 0 becomes 0. -/
def gain (c : List ℚ) (i : ℕ) : ℚ :=
  match delta c i with
  | none => 0
  | some d => if 0 < d then d else 0

/-- `loss = -delta.where(delta < 0, 0)`: keep `delta[i]` where it is `< 0`,
else 0, then negate.  The NaN at position 0 becomes 0. -/
def loss (c : List ℚ) (i : ℕ) : ℚ :=
  match delta c i with
  | none => 0
  | some d => if d < 0 then -d else 0

/-- The trailing window of length `w` ending at position `i` of the series
`f` (most recent element first). -/
def windowList (f : ℕ → ℚ) (w i : ℕ) : List ℚ :=
  (List.range w).map (fun j => f (i - j))

/-- `Series.rolling(window=w).mean()` on a series with no NaN entries:
NaN (`none`) while fewer than `w` observations exist, i.e. for `i + 1 < w`,
and the arithmetic mean of the trailing `w` values afterwards. -/
def rollingMean (f : ℕ → ℚ) (w i : ℕ) : Option ℚ :=
  if i + 1 < w then none else some ((windowList f w i).sum / (w : ℚ))

/-- `data['SMA20'] = data['Close'].rolling(window=20).mean()`. -/
def SMA20 (c : List ℚ) (i : ℕ) : Option ℚ := rollingMean (getC c) 20 i

/-- `avg_gain = gain.rolling(window=14).mean()`. -/
def avg_gain (c : List ℚ) (i : ℕ) : Option ℚ := rollingMean (gain c) 14 i

/-- `avg_loss = loss.rolling(window=14).mean()`. -/
def avg_loss (c : List ℚ) (i : ℕ) : Option ℚ := rollingMean (loss c) 14 i

/-- The float literal `1e-10` of line 71, as an exact rational. -/
def eps : ℚ := 1 / 10 ^ 10

/-- `rs = avg_gain / (avg_loss + 1e-10)`; NaN propagates. -/
def rs (c : List ℚ) (i : ℕ) : Option ℚ :=
  match avg_gain c i, avg_loss c i with
  | some g, some l => some (g / (l + eps))
  | _, _ => none

/-- `data['RSI'] = 100 - (100 / (1 + rs))`; NaN propagates. -/
def RSI (c : List ℚ) (i : ℕ) : Option ℚ :=
  (rs c i).map (fun x => 100 - 100 / (1 + x))

/-- `data['STD20'] = data['Close'].rolling(window=20).std()`, squared:
the rolling sample variance (pandas default `ddof=1`, so the squared
deviations from the window mean are divided by 19). -/
def var20 (c : List ℚ) (i : ℕ) : Option ℚ :=
  if i + 1 < 20 then none
  else
    some ((((windowList (getC c) 20 i).map
      (fun x => (x - (windowList (getC c) 20 i).sum / 20) ^ 2)).sum) / 19)

/-- `data['STD20']`: the nonnegative square root of the rolling sample
variance (irrational in general, hence real-valued). -/
noncomputable def STD20 (c : List ℚ) (i : ℕ) : Option ℝ :=
  (var20 c i).map (fun v => Real.sqrt (v : ℝ))

/-- `data['UpperBB'] = data['SMA20'] + 2 * data['STD20']`; NaN propagates. -/
noncomputable def UpperBB (c : List ℚ) (i : ℕ) : Option ℝ :=
  match SMA20 c i, STD20 c i with
  | some s, some d => some ((s : ℝ) + 2 * d)
  | _, _ => none

/-- `data['LowerBB'] = data['SMA20'] - 2 * data['STD20']`; NaN propagates. -/
noncomputable def LowerBB (c : List ℚ) (i : ℕ) : Option ℝ :=
  match SMA20 c i, STD20 c i with
  | some s, some d => some ((s : ℝ) - 2 * d)
  | _, _ => none

/-- The SMA signal strings of line 97. -/
inductive SmaSignal
  | Bullish
  | Bearish
  deriving DecidableEq

/-- The RSI signal strings of lines 102-109; the two `Oversold` variants
differ only in the descriptive "just crossed below 30" text. -/
inductive RsiSignal
  | Overbought
  | OversoldCrossed
  | Oversold
  | Neutral
  deriving DecidableEq

/-- The BUY/SELL/HOLD strings of lines 112-117. -/
inductive Rec
  | BUY
  | SELL
  | HOLD
  deriving DecidableEq

/-- Line 97: `"Bullish (buy or hold)" if latest_close > latest_sma else
"Bearish (sell or avoid)"`. -/
def sma_signal (close sma : ℚ) : SmaSignal :=
  if sma < close then .Bullish else .Bearish

/-- Lines 102-109: the RSI signal from the latest RSI and the previous
bar's RSI. -/
def rsi_signal (rsi prev : ℚ) : RsiSignal :=
  if 70 < rsi then .Overbought
  else if rsi < 30 ∧ 30 ≤ prev then .OversoldCrossed
  else if rsi < 30 then .Oversold
  else .Neutral

/-- `rsi_signal.startswith("Oversold")` of line 112. -/
def startsOversold : RsiSignal → Bool
  | .OversoldCrossed => true
  | .Oversold => true
  | _ => false

/-- Lines 112-117: BUY if the RSI signal starts with "Oversold" or the SMA
signal is Bullish with RSI in [40,60]; else SELL if Overbought; else HOLD. -/
def recommendation (close sma rsi prev : ℚ) : Rec :=
  if startsOversold (rsi_signal rsi prev)
      ∨ (sma_signal close sma = .Bullish ∧ 40 ≤ rsi ∧ rsi ≤ 60) then .BUY
  else if rsi_signal rsi prev = .Overbought then .SELL
  else .HOLD

/-- A per-ticker entry of the `recommendations` list: either the
"No data" report of line 51 or a BUY/SELL/HOLD signal of line 118. -/
inductive Report
  | NoData
  | Sig (r : Rec)
  deriving DecidableEq

/-- Lines 49-52 and 95-118 for one ticker: the guard
`data.empty or len(data) < 20` yields the "No data" report; otherwise the
signal is classified from the last bar's close, SMA and RSI (and the
previous bar's RSI, which exists because the length is at least 20). -/
def processTicker (closes : List ℚ) : Report :=
  if closes.length < 20 then .NoData
  else
    let n := closes.length
    let close := getC closes (n - 1)
    let sma := (SMA20 closes (n - 1)).getD 0
    let rsi := (RSI closes (n - 1)).getD 0
    let prev := (RSI closes (n - 2)).getD rsi
    .Sig (recommendation close sma rsi prev)

/-- The per-ticker loop of line 45: each ticker is processed independently
from its own series alone. -/
def processAll (inputs : List (String × List ℚ)) : List (String × Report) :=
  inputs.map (fun p => (p.1, processTicker p.2))

/-- How many tickers received the given BUY/SELL/HOLD recommendation;
"No data" reports are not counted. -/
def tally (reports : List (String × Report)) (r : Rec) : ℕ :=
  reports.countP (fun p => decide (p.2 = Report.Sig r))

/-! ### Concrete series used in scenarios -/

/-- A 34-bar series of constant close 100. -/
def c34 : List ℚ := List.replicate 34 100

/-- A 14-bar series (the least length at which the code first produces an
RSI value). -/
def c2ex : List ℚ := List.replicate 14 100

/-- A strictly monotonically increasing 35-bar close series whose
increments are so small (`10⁻¹¹` per bar) that the epsilon in the RSI
denominator dominates. -/
def c3ex : List ℚ := (List.range 35).map (fun i : ℕ => 100 + (i : ℚ) / 10 ^ 11)

/-- A strictly monotonically increasing 35-bar close series with
unit increments. -/
def c3w : List ℚ := (List.range 35).map (fun i : ℕ => 100 + (i : ℚ))

/-- A 14-bar series with one nonzero delta (a non-degenerate RSI window). -/
def c5w : List ℚ :=
  [100, 100, 100, 100, 100, 100, 100, 100, 100, 100, 100, 100, 100, 101]

/-- A 20-bar series of constant close 100. -/
def c20 : List ℚ := List.replicate 20 100

/-- A 15-bar series, shorter than the 20-bar window. -/
def c15 : List ℚ := List.replicate 15 100

/-! ### Helper lemmas -/

lemma gain_nonneg (c : List ℚ) (i : ℕ) : 0 ≤ gain c i := by
  unfold gain
  cases delta c i with
  | none => exact le_refl 0
  | some d =>
    dsimp only
    split_ifs with h
    · exact le_of_lt h
    · exact le_refl 0

lemma loss_nonneg (c : List ℚ) (i : ℕ) : 0 ≤ loss c i := by
  unfold loss
  cases delta c i with
  | none => exact le_refl 0
  | some d =>
    dsimp only
    split_ifs with h
    · linarith
    · exact le_refl 0

lemma rollingMean_nonneg {f : ℕ → ℚ} (hf : ∀ j, 0 ≤ f j) {w i : ℕ} {x : ℚ}
    (h : rollingMean f w i = some x) : 0 ≤ x := by
  unfold rollingMean at h
  split_ifs at h
  obtain rfl : (windowList f w i).sum / (w : ℚ) = x := Option.some.inj h
  apply div_nonneg
  · apply List.sum_nonneg
    intro y hy
    unfold windowList at hy
    obtain ⟨j, _, rfl⟩ := List.mem_map.mp hy
    exact hf _
  · positivity

lemma eps_pos : (0 : ℚ) < eps := by norm_num [eps]

lemma rsi_val_bounds {g l : ℚ} (hg : 0 ≤ g) (hl : 0 ≤ l) :
    0 ≤ 100 - 100 / (1 + g / (l + eps)) ∧ 100 - 100 / (1 + g / (l + eps)) < 100 := by
  have hle : (0 : ℚ) < l + eps := by have := eps_pos; linarith
  have hrs : 0 ≤ g / (l + eps) := div_nonneg hg hle.le
  have h1 : (0 : ℚ) < 1 + g / (l + eps) := by linarith
  constructor
  · have hd : 100 / (1 + g / (l + eps)) ≤ 100 := by
      apply div_le_self (by norm_num)
      linarith
    linarith
  · have hd : 0 < 100 / (1 + g / (l + eps)) := div_pos (by norm_num) h1
    linarith

lemma RSI_some_elim {c : List ℚ} {i : ℕ} {r : ℚ} (h : RSI c i = some r) :
    ∃ g l, avg_gain c i = some g ∧ avg_loss c i = some l ∧ 0 ≤ g ∧ 0 ≤ l ∧
      r = 100 - 100 / (1 + g / (l + eps)) := by
  unfold RSI rs at h
  cases hg : avg_gain c i with
  | none => rw [hg] at h; simp at h
  | some g =>
    cases hl : avg_loss c i with
    | none => rw [hg, hl] at h; simp at h
    | some l =>
      rw [hg, hl] at h
      simp only [Option.map_some'] at h
      refine ⟨g, l, rfl, rfl, ?_, ?_, (Option.some.inj h).symm⟩
      · exact rollingMean_nonneg (gain_nonneg c) hg
      · exact rollingMean_nonneg (loss_nonneg c) hl

lemma getC_replicate {m : ℕ} {x : ℚ} {i : ℕ} (h : i < m) :
    getC (List.replicate m x) i = x := by
  unfold getC
  rw [List.getD_eq_getElem _ _ (by simpa using h)]
  simp

lemma delta_replicate {m : ℕ} {x : ℚ} {i : ℕ} (h0 : 0 < i) (hm : i < m) :
    delta (List.replicate m x) i = some 0 := by
  unfold delta
  rw [if_neg (by omega)]
  rw [getC_replicate hm, getC_replicate (by omega)]
  norm_num

/-- Evaluation of the RSI of the constant 34-bar series at the last bar:
all gains and losses are 0, so `rs = 0/(0 + 1e-10) = 0` and
`RSI = 100 - 100/1 = 0`. -/
lemma c34_rsi : RSI c34 33 = some 0 := by
  norm_num [RSI, rs, avg_gain, avg_loss, rollingMean, windowList, gain, loss, delta,
    getC, eps, c34, List.range_succ]

lemma c34_sma : SMA20 c34 33 = some 100 := by
  norm_num [SMA20, rollingMean, windowList, getC, c34, List.range_succ]

lemma c34_report : processTicker c34 = Report.Sig Rec.BUY := by
  norm_num [processTicker, recommendation, rsi_signal, sma_signal, startsOversold,
    RSI, rs, avg_gain, avg_loss, SMA20, rollingMean, windowList, gain, loss, delta,
    getC, eps, c34, List.range_succ]

/-- Claim C1 (amended): for every price series whose trailing 14 deltas are
all zero, the RSI at that bar is 0 (not 50): rs is `0/(0 + 1e-10) = 0`, so
`RSI = 100 - 100/1 = 0`.  For the 34-bar constant-100 series the last-bar
RSI is 0, the SMA is 100, the SMA signal is Bearish, and the recommendation
is BUY (the Oversold rule fires on RSI = 0), not HOLD. -/
theorem rsi_constant_window (c : List ℚ) (i : ℕ) (hi14 : 14 ≤ i) (hlen : i < c.length)
    (hz : ∀ j < 14, delta c (i - j) = some 0) :
    RSI c i = some 0 ∧ SMA20 c34 33 = some 100 ∧
    sma_signal 100 100 = SmaSignal.Bearish ∧
    processTicker c34 = Report.Sig Rec.BUY := by
  refine ⟨?_, c34_sma, by norm_num [sma_signal], c34_report⟩
  have hag : avg_gain c i = some 0 := by
    unfold avg_gain rollingMean
    rw [if_neg (by omega)]
    congr 1
    rw [List.sum_eq_zero, zero_div]
    intro x hx
    unfold windowList at hx
    obtain ⟨j, hj, rfl⟩ := List.mem_map.mp hx
    have hd := hz j (List.mem_range.mp hj)
    unfold gain
    rw [hd]
    norm_num
  have hal : avg_loss c i = some 0 := by
    unfold avg_loss rollingMean
    rw [if_neg (by omega)]
    congr 1
    rw [List.sum_eq_zero, zero_div]
    intro x hx
    unfold windowList at hx
    obtain ⟨j, hj, rfl⟩ := List.mem_map.mp hx
    have hd := hz j (List.mem_range.mp hj)
    unfold loss
    rw [hd]
    norm_num
  unfold RSI rs
  rw [hag, hal]
  norm_num

/-- Witness for C1: the hypotheses of `rsi_constant_window` hold for the
34-bar constant-100 series at its last bar, and the conclusion evaluates
there. -/
theorem rsi_constant_window_witness :
    (14 ≤ 33 ∧ 33 < c34.length ∧ (∀ j < 14, delta c34 (33 - j) = some 0)) ∧
    (RSI c34 33 = some 0 ∧ SMA20 c34 33 = some 100 ∧
      sma_signal 100 100 = SmaSignal.Bearish ∧
      processTicker c34 = Report.Sig Rec.BUY) := by
  have hz : ∀ j < 14, delta c34 (33 - j) = some 0 := by
    intro j hj
    exact delta_replicate (by omega) (by omega)
  exact ⟨⟨by norm_num, by norm_num [c34], hz⟩,
    rsi_constant_window c34 33 (by norm_num) (by norm_num [c34]) hz⟩

/-- Counterexample to C1 as stated: at the 34-bar constant-100 series the
last-bar RSI is 0, not 50, and the recommendation is BUY, not HOLD. -/
theorem rsi_constant_window_cex :
    RSI c34 33 = some 0 ∧ RSI c34 33 ≠ some 50 ∧
    processTicker c34 = Report.Sig Rec.BUY ∧
    processTicker c34 ≠ Report.Sig Rec.HOLD := by
  refine ⟨c34_rsi, ?_, c34_report, ?_⟩
  · rw [c34_rsi]
    intro h
    have := Option.some.inj h
    norm_num at this
  · rw [c34_report]
    intro h
    cases h

/-- Claim C2 (amended): RSI(14) is defined (non-null) starting at bar index
13, not 14, because `delta.where(delta > 0, 0)` turns the undefined first
delta (`delta[0]` is NaN) into a zero gain/loss sample, so the rolling
14-mean already has 14 observations at bar 13; RSI is null exactly for
bars before 13. -/
theorem rsi_defined_from_bar_13 (c : List ℚ) (i : ℕ) (hi : i < c.length) :
    (RSI c i = none ↔ i < 13) ∧ delta c 0 = none ∧ gain c 0 = 0 ∧ loss c 0 = 0 := by
  refine ⟨?_, rfl, rfl, rfl⟩
  constructor
  · intro hnone
    by_contra hge
    have h14 : ¬ i + 1 < 14 := by omega
    unfold RSI rs avg_gain avg_loss rollingMean at hnone
    rw [if_neg h14, if_neg h14] at hnone
    simp at hnone
  · intro hlt
    have h14 : i + 1 < 14 := by omega
    unfold RSI rs avg_gain avg_loss rollingMean
    rw [if_pos h14, if_pos h14]
    rfl

/-- Witness for C2: at a 14-bar series, bar 13 has a defined RSI and bar 12
does not. -/
theorem rsi_defined_from_bar_13_witness :
    (13 < c2ex.length) ∧
    ((RSI c2ex 13 = none ↔ 13 < 13) ∧ delta c2ex 0 = none ∧
      gain c2ex 0 = 0 ∧ loss c2ex 0 = 0) :=
  ⟨by norm_num [c2ex], rsi_defined_from_bar_13 c2ex 13 (by norm_num [c2ex])⟩

/-- Counterexample to C2 as stated: the claim says RSI is null for all bars
earlier than index 14, but at a 14-bar series bar 13 already carries an RSI
value. -/
theorem rsi_defined_from_bar_13_cex :
    c2ex.length = 14 ∧ (RSI c2ex 13).isSome = true :=
  ⟨rfl, rfl⟩

/-! ### Signal-classification helper lemmas -/

lemma rsi_signal_overbought {x p : ℚ} (h : 70 < x) :
    rsi_signal x p = RsiSignal.Overbought := by
  unfold rsi_signal
  rw [if_pos h]

lemma rsi_signal_neutral {x p : ℚ} (h70 : ¬ 70 < x) (h30 : ¬ x < 30) :
    rsi_signal x p = RsiSignal.Neutral := by
  unfold rsi_signal
  rw [if_neg h70, if_neg (fun hc => h30 hc.1), if_neg h30]

lemma startsOversold_of_lt_30 {x p : ℚ} (h30 : x < 30) :
    startsOversold (rsi_signal x p) = true := by
  unfold rsi_signal
  rw [if_neg (by linarith : ¬ 70 < x)]
  by_cases hp : 30 ≤ p
  · rw [if_pos ⟨h30, hp⟩]
    rfl
  · rw [if_neg (fun hc => hp hc.2), if_pos h30]
    rfl

lemma overbought_sell (close sma x p : ℚ) (h : 70 < x) :
    recommendation close sma x p = Rec.SELL := by
  unfold recommendation
  rw [rsi_signal_overbought h]
  have hcond : ¬ (startsOversold RsiSignal.Overbought = true ∨
      (sma_signal close sma = SmaSignal.Bullish ∧ 40 ≤ x ∧ x ≤ 60)) := by
    rintro (hb | ⟨-, h40, h60⟩)
    · simp [startsOversold] at hb
    · linarith
  rw [if_neg hcond, if_pos rfl]

lemma oversold_buy (close sma x p : ℚ) (h : x < 30) :
    recommendation close sma x p = Rec.BUY := by
  unfold recommendation
  rw [if_pos (Or.inl (startsOversold_of_lt_30 h))]

lemma recommendation_prev_irrel (close sma x p p' : ℚ) :
    recommendation close sma x p = recommendation close sma x p' := by
  rcases lt_or_le 70 x with h | h
  · rw [overbought_sell close sma x p h, overbought_sell close sma x p' h]
  rcases lt_or_le x 30 with h' | h'
  · rw [oversold_buy close sma x p h', oversold_buy close sma x p' h']
  · unfold recommendation
    rw [rsi_signal_neutral (not_lt.mpr h) (not_lt.mpr h'),
      rsi_signal_neutral (not_lt.mpr h) (not_lt.mpr h')]

/-! ### Access helpers for range-generated series -/

lemma getC_map_range (f : ℕ → ℚ) (n i : ℕ) (h : i < n) :
    getC ((List.range n).map f) i = f i := by
  unfold getC
  rw [List.getD_eq_getElem _ _ (by simpa using h)]
  simp

lemma c3ex_chain : List.Chain' (fun a b : ℚ => a < b) c3ex := by
  apply List.Pairwise.chain'
  unfold c3ex
  apply List.Pairwise.map
  · intro a b hab
    have hc : (a : ℚ) < (b : ℚ) := by exact_mod_cast hab
    gcongr
  · exact List.pairwise_lt_range 35

lemma c3ex_rsi : RSI c3ex 34 = some (100 / 11) := by
  norm_num [RSI, rs, avg_gain, avg_loss, rollingMean, windowList, gain, loss, delta,
    getC, eps, c3ex, List.range_succ]

lemma c3ex_report : processTicker c3ex = Report.Sig Rec.BUY := by
  norm_num [processTicker, recommendation, rsi_signal, sma_signal, startsOversold,
    RSI, rs, avg_gain, avg_loss, SMA20, rollingMean, windowList, gain, loss, delta,
    getC, eps, c3ex, List.range_succ]

/-- Counterexample to C3 as stated: a strictly monotonically increasing
35-bar close series with increments of `10⁻¹¹` per bar has last-bar
RSI = 100/11 ≈ 9.09, which does not exceed 70, and its recommendation is
BUY (Oversold), not SELL. -/
theorem rising_series_cex :
    c3ex.length = 35 ∧ List.Chain' (fun a b : ℚ => a < b) c3ex ∧
    RSI c3ex 34 = some (100 / 11) ∧ ¬ (70 < (100 / 11 : ℚ)) ∧
    processTicker c3ex = Report.Sig Rec.BUY :=
  ⟨by norm_num [c3ex], c3ex_chain, c3ex_rsi, by norm_num, c3ex_report⟩

/-- Claim C3 (amended): for every strictly monotonically increasing 35-bar
close series whose last 14 increments are each at least 0.01, the computed
last-bar RSI exceeds 70, the RSI signal is Overbought, and the
recommendation is SELL regardless of the close-vs-SMA relation.  (The
increment lower bound is forced by the epsilon in the RSI denominator: for
microscopic increments the average gain is swamped by `1e-10` and the RSI
collapses, as the counterexample shows.) -/
theorem rising_series_sell (c : List ℚ) (hlen : c.length = 35)
    (hmono : List.Chain' (fun a b : ℚ => a < b) c)
    (hstep : ∀ j < 14, 1 / 100 ≤ getC c (34 - j) - getC c (33 - j)) :
    ∃ r, RSI c 34 = some r ∧ 70 < r ∧
      (∀ p, rsi_signal r p = RsiSignal.Overbought) ∧
      (∀ close sma p, recommendation close sma r p = Rec.SELL) := by
  have hgain : ∀ j < 14, gain c (34 - j) = getC c (34 - j) - getC c (33 - j) := by
    intro j hj
    have hd : delta c (34 - j) = some (getC c (34 - j) - getC c (33 - j)) := by
      unfold delta
      rw [if_neg (by omega)]
      have h1 : 34 - j - 1 = 33 - j := by omega
      rw [h1]
    unfold gain
    rw [hd]
    have hpos : 0 < getC c (34 - j) - getC c (33 - j) := by
      have := hstep j hj
      linarith
    dsimp only
    rw [if_pos hpos]
  have hloss : ∀ j < 14, loss c (34 - j) = 0 := by
    intro j hj
    have hd : delta c (34 - j) = some (getC c (34 - j) - getC c (33 - j)) := by
      unfold delta
      rw [if_neg (by omega)]
      have h1 : 34 - j - 1 = 33 - j := by omega
      rw [h1]
    unfold loss
    rw [hd]
    have hpos : 0 < getC c (34 - j) - getC c (33 - j) := by
      have := hstep j hj
      linarith
    dsimp only
    rw [if_neg (by linarith)]
  set G : ℚ := (windowList (gain c) 14 34).sum / (14 : ℕ) with hG
  have hag : avg_gain c 34 = some G := by
    unfold avg_gain rollingMean
    rw [if_neg (by omega)]
  have hal : avg_loss c 34 = some 0 := by
    unfold avg_loss rollingMean
    rw [if_neg (by omega)]
    congr 1
    rw [List.sum_eq_zero, zero_div]
    intro x hx
    unfold windowList at hx
    obtain ⟨j, hj, rfl⟩ := List.mem_map.mp hx
    exact hloss j (List.mem_range.mp hj)
  have hsum : (14 : ℚ) / 100 ≤ (windowList (gain c) 14 34).sum := by
    have hcmp : ((List.range 14).map (fun _ => (1 : ℚ) / 100)).sum ≤
        ((List.range 14).map (fun j => gain c (34 - j))).sum := by
      apply List.sum_le_sum
      intro j hj
      rw [hgain j (List.mem_range.mp hj)]
      exact hstep j (List.mem_range.mp hj)
    have hconst : ((List.range 14).map (fun _ => (1 : ℚ) / 100)).sum = 14 / 100 := by
      norm_num [List.range_succ]
    unfold windowList
    rw [← hconst]
    exact hcmp
  have hGe : 1 / 100 ≤ G := by
    rw [hG, show ((14 : ℕ) : ℚ) = 14 from by norm_num]
    rw [le_div_iff (by norm_num : (0 : ℚ) < 14)]
    linarith
  have hrs : (10 : ℚ) ^ 8 ≤ G / (0 + eps) := by
    have h0 : (0 : ℚ) + eps = 1 / 10 ^ 10 := by norm_num [eps]
    have hdiv : G / ((1 : ℚ) / 10 ^ 10) = G * 10 ^ 10 := by
      rw [div_eq_mul_inv]
      norm_num
    rw [h0, hdiv]
    nlinarith [hGe]
  have h1 : (0 : ℚ) < 1 + G / (0 + eps) := by nlinarith [hrs]
  have h70 : 70 < 100 - 100 / (1 + G / (0 + eps)) := by
    have hlt : 100 / (1 + G / (0 + eps)) < 30 := by
      rw [div_lt_iff h1]
      nlinarith [hrs]
    linarith
  refine ⟨100 - 100 / (1 + G / (0 + eps)), ?_, h70, ?_, ?_⟩
  · unfold RSI rs
    rw [hag, hal]
    rfl
  · intro p
    exact rsi_signal_overbought h70
  · intro close sma p
    exact overbought_sell close sma _ p h70

/-- Witness for C3 (amended): the unit-increment rising 35-bar series
satisfies the hypotheses, so its last-bar RSI exceeds 70 and the
recommendation is SELL. -/
theorem rising_series_sell_witness :
    (c3w.length = 35 ∧ List.Chain' (fun a b : ℚ => a < b) c3w ∧
      (∀ j < 14, 1 / 100 ≤ getC c3w (34 - j) - getC c3w (33 - j))) ∧
    (∃ r, RSI c3w 34 = some r ∧ 70 < r ∧
      (∀ p, rsi_signal r p = RsiSignal.Overbought) ∧
      (∀ close sma p, recommendation close sma r p = Rec.SELL)) := by
  have hlen : c3w.length = 35 := by rfl
  have hmono : List.Chain' (fun a b : ℚ => a < b) c3w := by
    apply List.Pairwise.chain'
    unfold c3w
    apply List.Pairwise.map
    · intro a b hab
      have hc : (a : ℚ) < (b : ℚ) := by exact_mod_cast hab
      gcongr
    · exact List.pairwise_lt_range 35
  have hstep : ∀ j < 14, 1 / 100 ≤ getC c3w (34 - j) - getC c3w (33 - j) := by
    intro j hj
    unfold c3w
    rw [getC_map_range _ _ _ (by omega), getC_map_range _ _ _ (by omega)]
    rw [Nat.cast_sub (by omega : j ≤ 34), Nat.cast_sub (by omega : j ≤ 33)]
    push_cast
    linarith
  exact ⟨⟨hlen, hmono, hstep⟩, rising_series_sell c3w hlen hmono hstep⟩

/-- Claim C4: per-ticker failures are isolated.  A series with fewer than
20 bars (the empty series included) yields the per-ticker "No data" report,
the reports of all other tickers are exactly what they would be in any
run, and the BUY/SELL/HOLD tally is unchanged by the presence of the
no-data ticker. -/
theorem no_data_isolated (pre post : List (String × List ℚ)) (name : String)
    (closes : List ℚ) (hshort : closes.length < 20) :
    processTicker closes = Report.NoData ∧
    processAll (pre ++ (name, closes) :: post) =
      processAll pre ++ (name, Report.NoData) :: processAll post ∧
    ∀ r, tally (processAll (pre ++ (name, closes) :: post)) r =
      tally (processAll (pre ++ post)) r := by
  have hnd : processTicker closes = Report.NoData := by
    unfold processTicker
    rw [if_pos hshort]
  refine ⟨hnd, ?_, ?_⟩
  · unfold processAll
    rw [List.map_append, List.map_cons, hnd]
  · intro r
    unfold tally processAll
    rw [List.map_append, List.map_cons, List.map_append]
    rw [List.countP_append, List.countP_cons, List.countP_append, hnd]
    have hzero : (decide ((name, Report.NoData).2 = Report.Sig r)) = false := by
      simp
    rw [hzero]
    simp

/-- Witness for C4: a 15-bar series between two 34-bar tickers is reported
as "No data" and leaves the other reports and the tally untouched. -/
theorem no_data_isolated_witness :
    (c15.length < 20) ∧
    (processTicker c15 = Report.NoData ∧
      processAll ([("AAPL", c34)] ++ ("GME", c15) :: [("NVDA", c34)]) =
        processAll [("AAPL", c34)] ++ ("GME", Report.NoData) :: processAll [("NVDA", c34)] ∧
      ∀ r, tally (processAll ([("AAPL", c34)] ++ ("GME", c15) :: [("NVDA", c34)])) r =
        tally (processAll ([("AAPL", c34)] ++ [("NVDA", c34)])) r) :=
  ⟨by norm_num [c15], no_data_isolated [("AAPL", c34)] [("NVDA", c34)] "GME" c15
    (by norm_num [c15])⟩

/-- Claim C5: wherever RSI is defined and the trailing window is
non-degenerate (some gain or loss sample is nonzero), the RSI value lies
in [0, 100]. -/
theorem rsi_in_range (c : List ℚ) (i : ℕ) (r : ℚ) (hi : i < c.length)
    (hr : RSI c i = some r)
    (hnd : ∃ j < 14, gain c (i - j) ≠ 0 ∨ loss c (i - j) ≠ 0) :
    0 ≤ r ∧ r ≤ 100 := by
  obtain ⟨g, l, hg, hl, hg0, hl0, rfl⟩ := RSI_some_elim hr
  have hb := rsi_val_bounds hg0 hl0
  exact ⟨hb.1, hb.2.le⟩

/-- Witness for C5: a 14-bar series with a single +1 delta has RSI
500000000000/5000000007 (≈ 99.99999986), which lies in [0, 100]. -/
theorem rsi_in_range_witness :
    (13 < c5w.length ∧ RSI c5w 13 = some (500000000000 / 5000000007) ∧
      (∃ j < 14, gain c5w (13 - j) ≠ 0 ∨ loss c5w (13 - j) ≠ 0)) ∧
    (0 ≤ (500000000000 / 5000000007 : ℚ) ∧ (500000000000 / 5000000007 : ℚ) ≤ 100) := by
  have hlen : 13 < c5w.length := by norm_num [c5w]
  have hr : RSI c5w 13 = some (500000000000 / 5000000007) := by
    norm_num [RSI, rs, avg_gain, avg_loss, rollingMean, windowList, gain, loss, delta,
      getC, eps, c5w, List.range_succ]
  have hg1 : gain c5w 13 = 1 := by
    norm_num [gain, delta, getC, c5w]
  have hnd : ∃ j < 14, gain c5w (13 - j) ≠ 0 ∨ loss c5w (13 - j) ≠ 0 :=
    ⟨0, by norm_num, Or.inl (by rw [show (13 : ℕ) - 0 = 13 from rfl, hg1]; norm_num)⟩
  exact ⟨⟨hlen, hr, hnd⟩, rsi_in_range c5w 13 _ hlen hr hnd⟩

/-- Claim C6: the recommendation is a deterministic function of the latest
bar's (close, SMA, RSI) alone; each ticker's report is computed from its
own series only (the ticker name never enters `processTicker`), and
reordering the tickers permutes the reports without changing any of
them. -/
theorem recommendation_deterministic :
    (∃ f : ℚ → ℚ → ℚ → Rec,
      ∀ close sma x p, recommendation close sma x p = f close sma x) ∧
    (∀ l₁ l₂ : List (String × List ℚ), l₁.Perm l₂ →
      (processAll l₁).Perm (processAll l₂)) ∧
    (∀ (inputs : List (String × List ℚ)) (name : String) (closes : List ℚ),
      (name, closes) ∈ inputs → (name, processTicker closes) ∈ processAll inputs) := by
  refine ⟨⟨fun close sma x => recommendation close sma x x,
    fun close sma x p => recommendation_prev_irrel close sma x p x⟩, ?_, ?_⟩
  · intro l₁ l₂ h
    exact h.map _
  · intro inputs name closes hmem
    unfold processAll
    exact List.mem_map.mpr ⟨(name, closes), hmem, rfl⟩

/-- Witness for C6: swapping two concrete tickers permutes the concrete
reports, and a concrete member ticker's report appears in the output. -/
theorem recommendation_deterministic_witness :
    ([("AAPL", c34), ("NVDA", c20)].Perm [("NVDA", c20), ("AAPL", c34)] ∧
      ("AAPL", c34) ∈ [("AAPL", c34), ("NVDA", c20)]) ∧
    ((processAll [("AAPL", c34), ("NVDA", c20)]).Perm
      (processAll [("NVDA", c20), ("AAPL", c34)]) ∧
      ("AAPL", processTicker c34) ∈ processAll [("AAPL", c34), ("NVDA", c20)]) := by
  have hp : [("AAPL", c34), ("NVDA", c20)].Perm [("NVDA", c20), ("AAPL", c34)] :=
    List.Perm.swap ("NVDA", c20) ("AAPL", c34) []
  have hm : ("AAPL", c34) ∈ [("AAPL", c34), ("NVDA", c20)] :=
    List.mem_cons_self _ _
  exact ⟨⟨hp, hm⟩, recommendation_deterministic.2.1 _ _ hp,
    recommendation_deterministic.2.2 _ "AAPL" c34 hm⟩

/-- Claim C7: the previous bar's RSI (which only selects between the two
"Oversold" wordings) never influences the recommendation: with identical
latest close, SMA and RSI, any two previous-bar RSI values give the same
BUY/SELL/HOLD recommendation. -/
theorem recommendation_ignores_prev_rsi (close sma x p p' : ℚ) :
    recommendation close sma x p = recommendation close sma x p' :=
  recommendation_prev_irrel close sma x p p'

/-- The backward-indexed rolling window sums the same values as the
contiguous slice of the last `w` closes ending at bar `i`. -/
lemma windowList_sum_slice (c : List ℚ) :
    ∀ w i, w ≤ i + 1 → i < c.length →
      (windowList (getC c) w i).sum = ((c.drop (i + 1 - w)).take w).sum := by
  intro w
  induction w with
  | zero =>
    intro i _ _
    simp [windowList]
  | succ w ih =>
    intro i hw hi
    have hwi : w ≤ i := by omega
    have hiw : i - w < c.length := by omega
    unfold windowList
    rw [List.range_succ, List.map_append, List.sum_append]
    have hIH := ih i (by omega) hi
    unfold windowList at hIH
    rw [hIH]
    rw [show i + 1 - (w + 1) = i - w from by omega]
    rw [List.drop_eq_getElem_cons hiw, List.take_succ_cons, List.sum_cons]
    rw [show i - w + 1 = i + 1 - w from by omega]
    simp only [List.map_cons, List.map_nil, List.sum_cons, List.sum_nil, add_zero]
    rw [← List.getD_eq_getElem c 0 hiw]
    unfold getC
    ring

/-- Claim C8: SMA(20) at bar `i` is the arithmetic mean of exactly the 20
consecutive closes ending at `i` when `i ≥ 19`, and is null when `i < 19`;
nulls are never replaced by zero or extrapolated. -/
theorem sma20_window_mean (c : List ℚ) (i : ℕ) (hi : i < c.length) :
    (i < 19 → SMA20 c i = none) ∧
    (19 ≤ i → SMA20 c i = some (((c.drop (i - 19)).take 20).sum / 20) ∧
      ((c.drop (i - 19)).take 20).length = 20) := by
  constructor
  · intro h
    unfold SMA20 rollingMean
    rw [if_pos (by omega)]
  · intro h
    constructor
    · unfold SMA20 rollingMean
      rw [if_neg (by omega)]
      rw [windowList_sum_slice c 20 i (by omega) hi]
      rw [show i + 1 - 20 = i - 19 from by omega]
      norm_num
    · rw [List.length_take, List.length_drop]
      omega

/-- Witness for C8: at the 20-bar constant series, bar 19's SMA is the mean
of the full slice and bar 5 (i < 19) has a null SMA. -/
theorem sma20_window_mean_witness :
    (19 < c20.length) ∧
    ((19 < 19 → SMA20 c20 19 = none) ∧
      (19 ≤ 19 → SMA20 c20 19 = some (((c20.drop (19 - 19)).take 20).sum / 20) ∧
        ((c20.drop (19 - 19)).take 20).length = 20)) :=
  ⟨by norm_num [c20], sma20_window_mean c20 19 (by norm_num [c20])⟩

/-- Claim C9: wherever the upper band, the SMA and the lower band are all
defined, `lower ≤ SMA ≤ upper` (the band half-width `2·std` is
nonnegative), and the bands are null exactly where the SMA or the rolling
standard deviation is null. -/
theorem bollinger_band_order (c : List ℚ) (i : ℕ) (hi : i < c.length) :
    (UpperBB c i = none ↔ SMA20 c i = none ∨ STD20 c i = none) ∧
    (LowerBB c i = none ↔ SMA20 c i = none ∨ STD20 c i = none) ∧
    ∀ (u : ℝ) (s : ℚ) (l : ℝ), UpperBB c i = some u → SMA20 c i = some s →
      LowerBB c i = some l → l ≤ (s : ℝ) ∧ (s : ℝ) ≤ u := by
  by_cases h : i + 1 < 20
  · have hs : SMA20 c i = none := by
      unfold SMA20 rollingMean
      rw [if_pos h]
    have hv : STD20 c i = none := by
      unfold STD20 var20
      rw [if_pos h]
      rfl
    have hu : UpperBB c i = none := by
      unfold UpperBB
      rw [hs, hv]
    have hl : LowerBB c i = none := by
      unfold LowerBB
      rw [hs, hv]
    refine ⟨by simp [hu, hs], by simp [hl, hs], ?_⟩
    intro u s l h1 _ _
    rw [hu] at h1
    cases h1
  · obtain ⟨s, hs⟩ : ∃ s, SMA20 c i = some s := by
      unfold SMA20 rollingMean
      rw [if_neg h]
      exact ⟨_, rfl⟩
    obtain ⟨v, hv⟩ : ∃ v, var20 c i = some v := by
      unfold var20
      rw [if_neg h]
      exact ⟨_, rfl⟩
    have hstd : STD20 c i = some (Real.sqrt (v : ℝ)) := by
      unfold STD20
      rw [hv]
      rfl
    have hu : UpperBB c i = some ((s : ℝ) + 2 * Real.sqrt (v : ℝ)) := by
      unfold UpperBB
      rw [hs, hstd]
    have hl : LowerBB c i = some ((s : ℝ) - 2 * Real.sqrt (v : ℝ)) := by
      unfold LowerBB
      rw [hs, hstd]
    refine ⟨by simp [hu, hs, hstd], by simp [hl, hs, hstd], ?_⟩
    intro u s' l h1 h2 h3
    rw [hu] at h1
    rw [hs] at h2
    rw [hl] at h3
    obtain rfl : s = s' := Option.some.inj h2
    obtain rfl : (s : ℝ) + 2 * Real.sqrt (v : ℝ) = u := Option.some.inj h1
    obtain rfl : (s : ℝ) - 2 * Real.sqrt (v : ℝ) = l := Option.some.inj h3
    have hnn : 0 ≤ Real.sqrt (v : ℝ) := Real.sqrt_nonneg _
    constructor
    · linarith
    · linarith

/-- Witness for C9: the conclusion instantiated at the 20-bar constant
series at bar 19, where all three quantities are defined. -/
theorem bollinger_band_order_witness :
    (19 < c20.length) ∧
    ((UpperBB c20 19 = none ↔ SMA20 c20 19 = none ∨ STD20 c20 19 = none) ∧
      (LowerBB c20 19 = none ↔ SMA20 c20 19 = none ∨ STD20 c20 19 = none) ∧
      ∀ (u : ℝ) (s : ℚ) (l : ℝ), UpperBB c20 19 = some u → SMA20 c20 19 = some s →
        LowerBB c20 19 = some l → l ≤ (s : ℝ) ∧ (s : ℝ) ≤ u) :=
  ⟨by norm_num [c20], bollinger_band_order c20 19 (by norm_num [c20])⟩

/-- Claim C10: because the RSI denominator is nudged by the epsilon
(`avg_loss + 1e-10`), every defined RSI value is strictly below 100, even
when the average loss is exactly zero. -/
theorem rsi_strictly_below_100 (c : List ℚ) (i : ℕ) (r : ℚ) (hi : i < c.length)
    (hr : RSI c i = some r) : r < 100 := by
  obtain ⟨g, l, hg, hl, hg0, hl0, rfl⟩ := RSI_some_elim hr
  exact (rsi_val_bounds hg0 hl0).2

/-- Witness for C10: the constant 34-bar series has last-bar RSI 0, which
is strictly below 100. -/
theorem rsi_strictly_below_100_witness :
    (33 < c34.length ∧ RSI c34 33 = some 0) ∧ (0 : ℚ) < 100 :=
  ⟨⟨by norm_num [c34], c34_rsi⟩,
    rsi_strictly_below_100 c34 33 0 (by norm_num [c34]) c34_rsi⟩

end StockAnalysis
